import Mathlib

/-!
Verification development for the Binance trading bot's decision core.
The Python sources are embedded shallowly: dictionaries become association
lists, floats become rationals, raised exceptions become `Except` errors,
and each method becomes a pure function on an explicit state record.
-/

/-! ### Association-list model of Python dictionaries -/

/-- Lookup of a key in an association list, mirroring `d[k]` / `k in d`. -/
def dict_lookup {α : Type} (k : String) : List (String × α) → Option α
  | [] => none
  | (k', v) :: rest => if k' = k then some v else dict_lookup k rest

/-- Assignment `d[k] = v`: replaces the entry in place when the key exists,
otherwise appends it, as CPython dicts preserve insertion order. -/
def dict_insert {α : Type} (k : String) (v : α) : List (String × α) → List (String × α)
  | [] => [(k, v)]
  | (k', v') :: rest => if k' = k then (k, v) :: rest else (k', v') :: dict_insert k v rest

/-- Deletion `del d[k]`: removes the first (for a dict: only) entry with the key. -/
def dict_erase {α : Type} (k : String) : List (String × α) → List (String × α)
  | [] => []
  | (k', v') :: rest => if k' = k then rest else (k', v') :: dict_erase k rest

/-! ### Errors (core/exceptions.py; risk_manager.py raises the first two) -/

/-- Exception values raised by the embedded code. -/
inductive PyError : Type
  | riskManagement (msg : String)
  | insufficientFunds (msg : String)
  | valueError (msg : String)
  | configurationError (msg : String)
deriving DecidableEq

/-- Whether an `Except` result is a raised `ConfigurationError`. -/
def is_configuration_error {α : Type} : Except PyError α → Bool
  | .error (.configurationError _) => true
  | _ => false

/-- Whether an `Except` result is a raised `RiskManagementError`. -/
def is_risk_management_error {α : Type} : Except PyError α → Bool
  | .error (.riskManagement _) => true
  | _ => false

/-! ### Risk manager data model (engine/risk_manager.py) -/

/-- Risk level enumeration. -/
inductive RiskLevel : Type
  | low
  | medium
  | high
  | critical
deriving DecidableEq

/-- Individual position risk assessment (dataclass `PositionRisk`). -/
structure PositionRisk : Type where
  symbol : String
  position_size : ℚ
  entry_price : ℚ
  current_price : ℚ
  unrealized_pnl : ℚ
  risk_percentage : ℚ
  stop_loss_distance : ℚ
  take_profit_distance : ℚ
deriving DecidableEq

/-- Mutable state of a `RiskManager` instance: the constructor's limit
parameters together with the balance, P&L history and tracked positions. -/
structure RiskManager : Type where
  max_position_size : ℚ
  max_total_exposure : ℚ
  max_daily_loss : ℚ
  max_drawdown : ℚ
  max_positions : Nat
  risk_free_rate : ℚ
  daily_pnl_history : List ℚ
  positions : List (String × PositionRisk)
  account_balance : ℚ
  initial_balance : ℚ
deriving DecidableEq

/-- A fresh `RiskManager()` with the constructor's default parameters. -/
def risk_manager_default : RiskManager :=
  { max_position_size := 0.1
    max_total_exposure := 0.5
    max_daily_loss := 0.05
    max_drawdown := 0.15
    max_positions := 10
    risk_free_rate := 0.02
    daily_pnl_history := []
    positions := []
    account_balance := 0
    initial_balance := 0 }

/-- `set_account_balance`: sets the balance; the initial balance is written
only while it is still `0.0`. -/
def set_account_balance (balance : ℚ) (rm : RiskManager) : RiskManager :=
  let rm' := if rm.initial_balance = 0 then { rm with initial_balance := balance } else rm
  { rm' with account_balance := balance }

/-- `add_position`: stores the position under its symbol. -/
def add_position (position : PositionRisk) (rm : RiskManager) : RiskManager :=
  { rm with positions := dict_insert position.symbol position rm.positions }

/-- `remove_position`: deletes the symbol's entry when present. -/
def remove_position (symbol : String) (rm : RiskManager) : RiskManager :=
  { rm with positions := dict_erase symbol rm.positions }

/-- `_calculate_pnl`: long positions use `(current - entry) * size`,
short positions the mirrored formula on `|size|`. -/
def calculate_pnl (position : PositionRisk) : ℚ :=
  if position.position_size > 0 then
    (position.current_price - position.entry_price) * position.position_size
  else
    (position.entry_price - position.current_price) * |position.position_size|

/-- `update_position`: refreshes price, unrealized P&L and risk percentage
of a tracked symbol; unknown symbols are ignored. -/
def update_position (symbol : String) (current_price : ℚ) (rm : RiskManager) : RiskManager :=
  match dict_lookup symbol rm.positions with
  | none => rm
  | some position =>
    let p1 := { position with current_price := current_price }
    let pnl := calculate_pnl p1
    let p2 := { p1 with unrealized_pnl := pnl, risk_percentage := |pnl| / rm.account_balance }
    { rm with positions := dict_insert symbol p2 rm.positions }

/-- `calculate_position_size`: risk-based sizing capped by the maximum
position value, raising on invalid prices or a too-small result.
The `symbol` argument is accepted but, as in the source, unused. -/
def calculate_position_size (rm : RiskManager) (_symbol : String)
    (entry_price stop_loss_price : ℚ) (risk_percentage : ℚ) : Except PyError ℚ :=
  if entry_price ≤ 0 ∨ stop_loss_price ≤ 0 then
    .error (.riskManagement "Invalid price values")
  else
    let risk_per_share := |entry_price - stop_loss_price|
    if risk_per_share = 0 then
      .error (.riskManagement "Stop loss too close to entry price")
    else
      let max_risk_amount := rm.account_balance * risk_percentage
      let position_size := max_risk_amount / risk_per_share
      let max_position_value := rm.account_balance * rm.max_position_size
      let max_position_size_by_value := max_position_value / entry_price
      let final_position_size := min position_size max_position_size_by_value
      let min_position_size : ℚ := 0.001
      if final_position_size < min_position_size then
        .error (.insufficientFunds "Position size too small")
      else
        .ok final_position_size

/-- The intermediate raw size of `calculate_position_size` before the
maximum-position-value cap: `balance * risk_percentage / |entry - stop|`. -/
def raw_position_size (balance entry_price stop_loss_price risk_percentage : ℚ) : ℚ :=
  balance * risk_percentage / |entry_price - stop_loss_price|

/-- `_calculate_total_exposure`: sum of `size * current_price` over positions. -/
def calculate_total_exposure (rm : RiskManager) : ℚ :=
  (rm.positions.map (fun p => p.2.position_size * p.2.current_price)).sum

/-- `_calculate_daily_pnl`: sum of the last 24 recorded samples. -/
def calculate_daily_pnl (rm : RiskManager) : ℚ :=
  if rm.daily_pnl_history = [] then 0
  else (rm.daily_pnl_history.drop (rm.daily_pnl_history.length - 24)).sum

/-- `_calculate_drawdown`: fractional decline of current equity below the
initial balance, `0` when the baseline is unset or equity is at or above it. -/
def calculate_drawdown (rm : RiskManager) : ℚ :=
  if rm.initial_balance = 0 then 0
  else
    let current_balance := rm.account_balance + (rm.positions.map (fun p => p.2.unrealized_pnl)).sum
    if current_balance ≥ rm.initial_balance then 0
    else (rm.initial_balance - current_balance) / rm.initial_balance

/-- `_get_current_price`: the source is an explicit placeholder that always
returns `0.0` for every symbol. -/
def get_current_price (_symbol : String) : ℚ := 0

/-- The violation messages `check_risk_limits` can emit, each carrying the
limit fraction (or count) interpolated into the source's f-string. -/
inductive Violation : Type
  | position_size_exceeded (max_position_size : ℚ)
  | total_exposure_exceeded (max_total_exposure : ℚ)
  | max_positions_reached (max_positions : Nat)
  | daily_loss_exceeded (max_daily_loss : ℚ)
  | drawdown_exceeded (max_drawdown : ℚ)
deriving DecidableEq

/-- `check_risk_limits`: evaluates the five limit rules in order, collecting
every violation; `ok` is the emptiness of the collected list. -/
def check_risk_limits (rm : RiskManager) (new_position_size : ℚ) (symbol : String) :
    Bool × List Violation :=
  let position_value := new_position_size * get_current_price symbol
  let v1 : List Violation :=
    if position_value > rm.account_balance * rm.max_position_size then
      [.position_size_exceeded rm.max_position_size] else []
  let new_exposure := calculate_total_exposure rm + position_value
  let v2 : List Violation :=
    if new_exposure > rm.account_balance * rm.max_total_exposure then
      [.total_exposure_exceeded rm.max_total_exposure] else []
  let v3 : List Violation :=
    if rm.positions.length ≥ rm.max_positions then
      [.max_positions_reached rm.max_positions] else []
  let v4 : List Violation :=
    if calculate_daily_pnl rm < -(rm.account_balance * rm.max_daily_loss) then
      [.daily_loss_exceeded rm.max_daily_loss] else []
  let v5 : List Violation :=
    if calculate_drawdown rm > rm.max_drawdown then
      [.drawdown_exceeded rm.max_drawdown] else []
  let violations := v1 ++ v2 ++ v3 ++ v4 ++ v5
  (violations.length = 0, violations)

/-- `should_close_position`: fixed stop-loss / take-profit / per-position
risk thresholds at 2%, 4% and 5% of the account balance. -/
def should_close_position (rm : RiskManager) (symbol : String) : Bool × String :=
  match dict_lookup symbol rm.positions with
  | none => (false, "Position not found")
  | some position =>
    if position.unrealized_pnl < -rm.account_balance * 0.02 then
      (true, "Stop loss triggered")
    else if position.unrealized_pnl > rm.account_balance * 0.04 then
      (true, "Take profit reached")
    else if position.risk_percentage > 0.05 then
      (true, "Position risk too high")
    else
      (false, "Position within risk limits")

/-- `_calculate_risk_score`: exposure, negative daily P&L and drawdown
components capped at 30/30/40 points, total clamped to 100. -/
def calculate_risk_score (rm : RiskManager)
    (total_exposure daily_pnl drawdown : ℚ) : ℚ :=
  let exposure_ratio := if rm.account_balance > 0 then total_exposure / rm.account_balance else 0
  let s1 := min 30 (exposure_ratio * 100)
  let s2 :=
    if daily_pnl < 0 then
      let pnl_ratio := if rm.account_balance > 0 then |daily_pnl| / rm.account_balance else 0
      min 30 (pnl_ratio * 100)
    else 0
  let s3 := min 40 (drawdown * 100)
  min 100 (s1 + s2 + s3)

/-- The risk level of `calculate_risk_metrics`, bucketed at score 30/60/80. -/
def risk_level (rm : RiskManager) : RiskLevel :=
  let score := calculate_risk_score rm (calculate_total_exposure rm)
    (calculate_daily_pnl rm) (calculate_drawdown rm)
  if score < 30 then .low
  else if score < 60 then .medium
  else if score < 80 then .high
  else .critical

/-! ### Strategy signals (strategies/base.py) -/

/-- Trading signal types. -/
inductive SignalType : Type
  | buy
  | sell
  | hold
deriving DecidableEq

/-- Result of a strategy calculation; only the fields the decision core
reads are modelled (metadata is an opaque diagnostics map). -/
structure StrategyResult : Type where
  signal : SignalType
  confidence : ℚ
  stop_loss : Option ℚ
  take_profit : Option ℚ
deriving DecidableEq

/-! ### Triple EMA parameter validation (strategies/triple_ema.py) -/

/-- The integer parameters of `TripleEMAStrategy`. -/
structure TripleEMAParams : Type where
  fast_ema : Int
  medium_ema : Int
  slow_ema : Int
  min_candles : Int
deriving DecidableEq

/-- `TripleEMAStrategy._validate_parameters`: requires `fast < medium < slow`
and positive periods, raising `ValueError` otherwise. -/
def validate_parameters (p : TripleEMAParams) : Except PyError Unit :=
  if ¬ (p.fast_ema < p.medium_ema ∧ p.medium_ema < p.slow_ema) then
    .error (.valueError "EMA periods must be in ascending order: fast < medium < slow")
  else if p.fast_ema < 1 ∨ p.medium_ema < 1 ∨ p.slow_ema < 1 then
    .error (.valueError "EMA periods must be positive integers")
  else
    .ok ()

/-! ### Signal processor (engine/signal_processor.py) -/

/-- `_should_act_on_signal`: the four reject rules — confidence below the
trading threshold, unchanged same-direction signal (confidence moved by
less than 0.1), High or Critical aggregate risk level, and an existing
tracked position for the symbol. -/
def should_act_on_signal (trading_threshold : ℚ) (rm : RiskManager)
    (last_signals : List (String × StrategyResult))
    (symbol : String) (signal_result : StrategyResult) : Bool :=
  if signal_result.confidence < trading_threshold then false
  else
    let unchanged : Bool :=
      match dict_lookup symbol last_signals with
      | some last_signal =>
        last_signal.signal = signal_result.signal ∧
          |last_signal.confidence - signal_result.confidence| < 0.1
      | none => false
    if unchanged then false
    else if risk_level rm = .high ∨ risk_level rm = .critical then false
    else if (dict_lookup symbol rm.positions).isSome then false
    else true

/-- `process_signal`, reduced to its gating effect: the returned flag is
whether the signal was forwarded for execution; `last_signals[symbol]` is
written only on the non-forwarding path, which falls through to the store. -/
def process_signal (trading_threshold : ℚ) (rm : RiskManager)
    (last_signals : List (String × StrategyResult))
    (symbol : String) (signal_result : StrategyResult) :
    Bool × List (String × StrategyResult) :=
  if should_act_on_signal trading_threshold rm last_signals symbol signal_result then
    (true, last_signals)
  else
    (false, dict_insert symbol signal_result last_signals)

/-- Folds `process_signal` over a stream of `(symbol, signal)` inputs,
returning the per-signal forwarding flags and the final last-signal cache.
The risk-manager state is not mutated by `process_signal` in the source. -/
def process_stream (trading_threshold : ℚ) (rm : RiskManager)
    (last_signals : List (String × StrategyResult)) :
    List (String × StrategyResult) → List Bool × List (String × StrategyResult)
  | [] => ([], last_signals)
  | (symbol, signal_result) :: rest =>
    let step := process_signal trading_threshold rm last_signals symbol signal_result
    let tail := process_stream trading_threshold rm step.2 rest
    (step.1 :: tail.1, tail.2)

/-! ### Position manager (engine/position_manager.py) -/

/-- The per-symbol record the position manager tracks (the wall-clock
timestamp field is outside the model). -/
structure TrackedPosition : Type where
  size : ℚ
  entry_price : ℚ
  current_price : ℚ
  unrealized_pnl : ℚ
  side : String
  order_id : Option String
deriving DecidableEq

/-- An order acknowledgement from the exchange client. -/
structure OrderAck : Type where
  order_id : String
  status : String
deriving DecidableEq

/-- The observable calls `open_position` / `_close_position` make into the
risk manager and the exchange client, in order. -/
inductive PMEffect : Type
  | calc_position_size
  | check_limits
  | place_order (symbol side : String) (quantity : ℚ)
deriving DecidableEq

/-- `_calculate_stop_loss_price`: the signal's stop-loss when set and
non-zero (Python truthiness), else ±2% of the current price by direction. -/
def calculate_stop_loss_price (signal_result : StrategyResult) (current_price : ℚ) : ℚ :=
  match signal_result.stop_loss with
  | some s => if s = 0 then
      (if signal_result.signal = .buy then current_price * 0.98 else current_price * 1.02)
    else s
  | none =>
    if signal_result.signal = .buy then current_price * 0.98 else current_price * 1.02

/-- `open_position`: dry-run short-circuit, else size via the risk manager,
re-check limits, place a market order and record the position in both maps.
`api` stands for the exchange client's `place_order`; raised sizing errors
are caught by the surrounding handler, which returns `None`. -/
def open_position (dry_run : Bool) (api : String → String → ℚ → OrderAck)
    (rm : RiskManager) (pm : List (String × TrackedPosition))
    (symbol : String) (signal_result : StrategyResult) (current_price : ℚ) :
    Option OrderAck × RiskManager × List (String × TrackedPosition) × List PMEffect :=
  if dry_run then (some ⟨"dry_run", "FILLED"⟩, rm, pm, [])
  else
    let stop_loss_price := calculate_stop_loss_price signal_result current_price
    match calculate_position_size rm symbol current_price stop_loss_price 0.02 with
    | .error _ => (none, rm, pm, [.calc_position_size])
    | .ok position_size =>
      let checked := check_risk_limits rm position_size symbol
      if checked.1 = false then (none, rm, pm, [.calc_position_size, .check_limits])
      else
        let side := if signal_result.signal = .buy then "BUY" else "SELL"
        let order_result := api symbol side position_size
        let signed_size := if side = "BUY" then position_size else -position_size
        let pm' := dict_insert symbol
          { size := signed_size, entry_price := current_price,
            current_price := current_price, unrealized_pnl := 0,
            side := side, order_id := some order_result.order_id } pm
        let position_risk : PositionRisk :=
          { symbol := symbol, position_size := signed_size,
            entry_price := current_price, current_price := current_price,
            unrealized_pnl := 0, risk_percentage := 0,
            stop_loss_distance := |current_price - stop_loss_price|,
            take_profit_distance := 0 }
        (some order_result, add_position position_risk rm, pm',
          [.calc_position_size, .check_limits, .place_order symbol side position_size])

/-- `_close_position`: dry-run logs and returns; otherwise places an
opposing market order and removes the symbol from both maps. -/
def close_position (dry_run : Bool) (api : String → String → ℚ → OrderAck)
    (rm : RiskManager) (pm : List (String × TrackedPosition))
    (symbol : String) (_reason : String) :
    RiskManager × List (String × TrackedPosition) × List PMEffect :=
  if dry_run then (rm, pm, [])
  else
    match dict_lookup symbol pm with
    | none => (rm, pm, [])
    | some position =>
      let side := if position.size > 0 then "SELL" else "BUY"
      let quantity := |position.size|
      let _order_result := api symbol side quantity
      (remove_position symbol rm, dict_erase symbol pm,
        [.place_order symbol side quantity])

/-! ### Concrete states used by the spec's scenarios -/

/-- A risk manager holding only an account balance of 10,000. -/
def rm_balance_10000 : RiskManager :=
  { risk_manager_default with account_balance := 10000, initial_balance := 10000 }

/-- A tracked position with every numeric field zero. -/
def flat_position (symbol : String) : PositionRisk :=
  { symbol := symbol, position_size := 0, entry_price := 0, current_price := 0,
    unrealized_pnl := 0, risk_percentage := 0, stop_loss_distance := 0,
    take_profit_distance := 0 }

/-- Scenario B: five positions already tracked with `max_positions = 5`. -/
def rm_scenario_b : RiskManager :=
  { risk_manager_default with
    account_balance := 10000, initial_balance := 10000, max_positions := 5,
    positions := [("S1", flat_position "S1"), ("S2", flat_position "S2"),
      ("S3", flat_position "S3"), ("S4", flat_position "S4"),
      ("S5", flat_position "S5")] }

/-! ### Claims -/

/-- C1: for balance > 0 and positive, distinct entry/stop prices,
`calculate_position_size` returns the minimum of the risk-based size and the
max-position-value cap, raising `InsufficientFundsError` below 0.001 and
`RiskManagementError` on non-positive or coinciding prices; the raw
pre-cap size of Scenario A is 0.2. -/
theorem c1_calculate_position_size_spec (rm : RiskManager) (symbol : String)
    (entry_price stop_loss_price risk_percentage : ℚ)
    (hb : 0 < rm.account_balance) :
    (0 < entry_price → 0 < stop_loss_price → entry_price ≠ stop_loss_price →
      calculate_position_size rm symbol entry_price stop_loss_price risk_percentage =
        (if min (rm.account_balance * risk_percentage / |entry_price - stop_loss_price|)
              (rm.account_balance * rm.max_position_size / entry_price) < 0.001 then
          Except.error (PyError.insufficientFunds "Position size too small")
        else
          Except.ok (min (rm.account_balance * risk_percentage / |entry_price - stop_loss_price|)
            (rm.account_balance * rm.max_position_size / entry_price))))
    ∧ ((entry_price ≤ 0 ∨ stop_loss_price ≤ 0 ∨ entry_price = stop_loss_price) →
        is_risk_management_error
          (calculate_position_size rm symbol entry_price stop_loss_price risk_percentage) = true)
    ∧ raw_position_size 10000 50000 49000 0.02 = 0.2 := by
  refine ⟨?_, ?_, ?_⟩
  · intro he hs hne
    have h1 : ¬ (entry_price ≤ 0 ∨ stop_loss_price ≤ 0) := by
      push_neg
      exact ⟨he, hs⟩
    have h2 : ¬ (|entry_price - stop_loss_price| = 0) := by
      simp only [abs_eq_zero, sub_eq_zero]
      exact hne
    simp only [calculate_position_size, h1, h2, if_false]
  · intro h
    by_cases h1 : entry_price ≤ 0 ∨ stop_loss_price ≤ 0
    · simp [calculate_position_size, h1, is_risk_management_error]
    · have he : entry_price = stop_loss_price := by
        rcases h with h | h | h
        · exact absurd (Or.inl h) h1
        · exact absurd (Or.inr h) h1
        · exact h
      have h1' := h1
      push_neg at h1'
      simp [calculate_position_size, not_le.2 h1'.1, not_le.2 h1'.2, he,
        is_risk_management_error]
  · norm_num [raw_position_size]

/-- Witness for C1: Scenario A's inputs (balance 10,000, entry 50,000,
stop 49,000, risk 2%) satisfy the hypotheses; the cap binds and the call
returns 0.02. -/
theorem c1_calculate_position_size_spec_witness :
    (0 < rm_balance_10000.account_balance) ∧
    ((0 < (50000 : ℚ) → 0 < (49000 : ℚ) → (50000 : ℚ) ≠ 49000 →
      calculate_position_size rm_balance_10000 "BTCUSDT" 50000 49000 0.02 =
        (if min (rm_balance_10000.account_balance * 0.02 / |(50000 : ℚ) - 49000|)
              (rm_balance_10000.account_balance * rm_balance_10000.max_position_size / 50000) < 0.001 then
          Except.error (PyError.insufficientFunds "Position size too small")
        else
          Except.ok (min (rm_balance_10000.account_balance * 0.02 / |(50000 : ℚ) - 49000|)
            (rm_balance_10000.account_balance * rm_balance_10000.max_position_size / 50000))))
      ∧ (((50000 : ℚ) ≤ 0 ∨ (49000 : ℚ) ≤ 0 ∨ (50000 : ℚ) = 49000) →
          is_risk_management_error
            (calculate_position_size rm_balance_10000 "BTCUSDT" 50000 49000 0.02) = true)
      ∧ raw_position_size 10000 50000 49000 0.02 = 0.2) :=
  ⟨by decide, c1_calculate_position_size_spec rm_balance_10000 "BTCUSDT" 50000 49000 0.02 (by decide)⟩

/-- C2: `check_risk_limits` evaluates all five limit rules without
short-circuiting — each rule's violation is reported iff its condition
holds (with the symbol's current price as returned by the source's price
lookup) — and `ok` is true iff no rule is violated; in Scenario B a sixth
call with five tracked positions and `max_positions = 5` reports the
maximum-positions violation with `ok = false`. -/
theorem c2_check_risk_limits_spec (rm : RiskManager) (c : ℚ) (s : String) :
    (Violation.position_size_exceeded rm.max_position_size ∈ (check_risk_limits rm c s).2 ↔
      c * get_current_price s > rm.account_balance * rm.max_position_size)
    ∧ (Violation.total_exposure_exceeded rm.max_total_exposure ∈ (check_risk_limits rm c s).2 ↔
      calculate_total_exposure rm + c * get_current_price s >
        rm.account_balance * rm.max_total_exposure)
    ∧ (Violation.max_positions_reached rm.max_positions ∈ (check_risk_limits rm c s).2 ↔
      rm.positions.length ≥ rm.max_positions)
    ∧ (Violation.daily_loss_exceeded rm.max_daily_loss ∈ (check_risk_limits rm c s).2 ↔
      calculate_daily_pnl rm < -(rm.account_balance * rm.max_daily_loss))
    ∧ (Violation.drawdown_exceeded rm.max_drawdown ∈ (check_risk_limits rm c s).2 ↔
      calculate_drawdown rm > rm.max_drawdown)
    ∧ ((check_risk_limits rm c s).1 = true ↔ (check_risk_limits rm c s).2 = [])
    ∧ (check_risk_limits rm_scenario_b 1 "ETHUSDT").1 = false
    ∧ Violation.max_positions_reached 5 ∈ (check_risk_limits rm_scenario_b 1 "ETHUSDT").2 := by
  refine ⟨?_, ?_, ?_, ?_, ?_, ?_, ?_, ?_⟩
  · simp only [check_risk_limits]
    split_ifs <;> simp [*]
  · simp only [check_risk_limits]
    split_ifs <;> simp [*]
  · simp only [check_risk_limits]
    split_ifs <;> simp [*]
  · simp only [check_risk_limits]
    split_ifs <;> simp [*]
  · simp only [check_risk_limits]
    split_ifs <;> simp [*]
  · simp only [check_risk_limits]
    split_ifs <;> simp [*]
  · norm_num [check_risk_limits, rm_scenario_b, risk_manager_default, flat_position,
      calculate_total_exposure, calculate_daily_pnl, calculate_drawdown, get_current_price]
  · norm_num [check_risk_limits, rm_scenario_b, risk_manager_default, flat_position,
      calculate_total_exposure, calculate_daily_pnl, calculate_drawdown, get_current_price]

/-- Scenario C's position: size 0.1, entry 50,000, still at its entry price. -/
def position_scenario_c : PositionRisk :=
  { symbol := "BTCUSDT", position_size := 0.1, entry_price := 50000,
    current_price := 50000, unrealized_pnl := 0, risk_percentage := 0,
    stop_loss_distance := 0, take_profit_distance := 0 }

/-- Scenario C's risk manager: balance 10,000 holding that position. -/
def rm_scenario_c : RiskManager :=
  { risk_manager_default with
    account_balance := 10000, initial_balance := 10000,
    positions := [("BTCUSDT", position_scenario_c)] }

/-- C3 counterexample: in Scenario C the updated unrealized P&L is exactly
−200 = −2% of the balance, the stop-loss comparison is strict, and
`should_close_position` answers "within limits", not "stop loss triggered". -/
theorem c3_boundary_counterexample :
    should_close_position (update_position "BTCUSDT" 48000 rm_scenario_c) "BTCUSDT" =
      (false, "Position within risk limits")
    ∧ should_close_position (update_position "BTCUSDT" 48000 rm_scenario_c) "BTCUSDT" ≠
      (true, "Stop loss triggered") := by
  have h : should_close_position (update_position "BTCUSDT" 48000 rm_scenario_c) "BTCUSDT" =
      (false, "Position within risk limits") := by
    norm_num [should_close_position, update_position, rm_scenario_c, position_scenario_c,
      risk_manager_default, dict_lookup, dict_insert, calculate_pnl]
  exact ⟨h, by simp [h]⟩

/-- C3 (amended): for a tracked symbol the close decision uses strict
thresholds — stop loss only below −2% of balance, take profit only above
+4%, risk only above 5% — and on every boundary (Scenario C's −2% included)
the position is reported within limits. -/
theorem c3_should_close_position_thresholds (rm : RiskManager) (symbol : String)
    (p : PositionRisk) (h : dict_lookup symbol rm.positions = some p) :
    (p.unrealized_pnl < -rm.account_balance * 0.02 →
      should_close_position rm symbol = (true, "Stop loss triggered"))
    ∧ (-rm.account_balance * 0.02 ≤ p.unrealized_pnl →
        rm.account_balance * 0.04 < p.unrealized_pnl →
      should_close_position rm symbol = (true, "Take profit reached"))
    ∧ (-rm.account_balance * 0.02 ≤ p.unrealized_pnl →
        p.unrealized_pnl ≤ rm.account_balance * 0.04 → 0.05 < p.risk_percentage →
      should_close_position rm symbol = (true, "Position risk too high"))
    ∧ (-rm.account_balance * 0.02 ≤ p.unrealized_pnl →
        p.unrealized_pnl ≤ rm.account_balance * 0.04 → p.risk_percentage ≤ 0.05 →
      should_close_position rm symbol = (false, "Position within risk limits")) := by
  refine ⟨?_, ?_, ?_, ?_⟩
  · intro h1
    simp only [should_close_position, h]
    rw [if_pos h1]
  · intro h1 h2
    simp only [should_close_position, h]
    rw [if_neg (not_lt.2 h1), if_pos h2]
  · intro h1 h2 h3
    simp only [should_close_position, h]
    rw [if_neg (not_lt.2 h1), if_neg (not_lt.2 h2), if_pos h3]
  · intro h1 h2 h3
    simp only [should_close_position, h]
    rw [if_neg (not_lt.2 h1), if_neg (not_lt.2 h2), if_neg (not_lt.2 h3)]

/-- Witness for C3: Scenario C's pre-update state satisfies the lookup
hypothesis at its concrete position. -/
theorem c3_should_close_position_thresholds_witness :
    dict_lookup "BTCUSDT" rm_scenario_c.positions = some position_scenario_c
    ∧ ((position_scenario_c.unrealized_pnl < -rm_scenario_c.account_balance * 0.02 →
        should_close_position rm_scenario_c "BTCUSDT" = (true, "Stop loss triggered"))
      ∧ (-rm_scenario_c.account_balance * 0.02 ≤ position_scenario_c.unrealized_pnl →
          rm_scenario_c.account_balance * 0.04 < position_scenario_c.unrealized_pnl →
        should_close_position rm_scenario_c "BTCUSDT" = (true, "Take profit reached"))
      ∧ (-rm_scenario_c.account_balance * 0.02 ≤ position_scenario_c.unrealized_pnl →
          position_scenario_c.unrealized_pnl ≤ rm_scenario_c.account_balance * 0.04 →
          0.05 < position_scenario_c.risk_percentage →
        should_close_position rm_scenario_c "BTCUSDT" = (true, "Position risk too high"))
      ∧ (-rm_scenario_c.account_balance * 0.02 ≤ position_scenario_c.unrealized_pnl →
          position_scenario_c.unrealized_pnl ≤ rm_scenario_c.account_balance * 0.04 →
          position_scenario_c.risk_percentage ≤ 0.05 →
        should_close_position rm_scenario_c "BTCUSDT" =
          (false, "Position within risk limits"))) :=
  ⟨rfl, c3_should_close_position_thresholds rm_scenario_c "BTCUSDT" position_scenario_c rfl⟩

/-- A state whose open position has lost 2.5 times the whole balance, so
current equity is negative. -/
def rm_negative_equity : RiskManager :=
  { risk_manager_default with
    account_balance := 10000, initial_balance := 10000,
    positions := [("BTCUSDT",
      { symbol := "BTCUSDT", position_size := 1, entry_price := 50000,
        current_price := 25000, unrealized_pnl := -25000, risk_percentage := 2.5,
        stop_loss_distance := 0, take_profit_distance := 0 })] }

/-- C4 counterexample: with negative current equity the computed drawdown
is 2.5, so it does not lie in [0, 1]. -/
theorem c4_drawdown_above_one_counterexample :
    calculate_drawdown rm_negative_equity = 2.5
    ∧ ¬ calculate_drawdown rm_negative_equity ≤ 1 := by
  have h : calculate_drawdown rm_negative_equity = 2.5 := by
    norm_num [calculate_drawdown, rm_negative_equity, risk_manager_default]
  exact ⟨h, by rw [h]; norm_num⟩

/-- C4 (amended): with a non-negative initial balance the drawdown is
non-negative and vanishes whenever current equity is at least the initial
balance; it is bounded by 1 only under the extra assumption that current
equity is non-negative (it exceeds 1 when equity goes negative). -/
theorem c4_drawdown_bounds (rm : RiskManager) (hi : 0 ≤ rm.initial_balance) :
    0 ≤ calculate_drawdown rm
    ∧ (rm.initial_balance ≤
        rm.account_balance + (rm.positions.map (fun p => p.2.unrealized_pnl)).sum →
      calculate_drawdown rm = 0)
    ∧ (0 ≤ rm.account_balance + (rm.positions.map (fun p => p.2.unrealized_pnl)).sum →
      calculate_drawdown rm ≤ 1) := by
  by_cases hz : rm.initial_balance = 0
  · refine ⟨?_, ?_, ?_⟩ <;> simp [calculate_drawdown, hz]
  · have hpos : 0 < rm.initial_balance := lt_of_le_of_ne hi (Ne.symm hz)
    by_cases hc : rm.initial_balance ≤
        rm.account_balance + (rm.positions.map (fun p => p.2.unrealized_pnl)).sum
    · refine ⟨?_, ?_, ?_⟩ <;> simp [calculate_drawdown, hz, hc]
    · push_neg at hc
      have hdd : calculate_drawdown rm =
          (rm.initial_balance -
            (rm.account_balance + (rm.positions.map (fun p => p.2.unrealized_pnl)).sum)) /
            rm.initial_balance := by
        simp [calculate_drawdown, hz, not_le.2 hc]
      refine ⟨?_, ?_, ?_⟩
      · rw [hdd]
        exact div_nonneg (by linarith) (le_of_lt hpos)
      · intro hcontra
        exact absurd hcontra (not_le.2 hc)
      · intro heq
        rw [hdd, div_le_one hpos]
        linarith

/-- Witness for C4: the fresh risk manager has initial balance 0 ≥ 0 and a
zero drawdown satisfying all three bounds. -/
theorem c4_drawdown_bounds_witness :
    (0 : ℚ) ≤ risk_manager_default.initial_balance
    ∧ (0 ≤ calculate_drawdown risk_manager_default
      ∧ (risk_manager_default.initial_balance ≤
          risk_manager_default.account_balance +
            (risk_manager_default.positions.map (fun p => p.2.unrealized_pnl)).sum →
        calculate_drawdown risk_manager_default = 0)
      ∧ (0 ≤ risk_manager_default.account_balance +
            (risk_manager_default.positions.map (fun p => p.2.unrealized_pnl)).sum →
        calculate_drawdown risk_manager_default ≤ 1)) :=
  ⟨by decide, c4_drawdown_bounds risk_manager_default (by decide)⟩

/-- The "signal unchanged" reject condition of `_should_act_on_signal`:
the cached last signal for the symbol has the same direction and a
confidence within 0.1. -/
def unchanged_signal (last_signals : List (String × StrategyResult))
    (symbol : String) (signal_result : StrategyResult) : Prop :=
  match dict_lookup symbol last_signals with
  | some last_signal =>
    last_signal.signal = signal_result.signal ∧
      |last_signal.confidence - signal_result.confidence| < 0.1
  | none => False

instance (ls : List (String × StrategyResult)) (sym : String) (sig : StrategyResult) :
    Decidable (unchanged_signal ls sym sig) := by
  unfold unchanged_signal
  cases dict_lookup sym ls <;> infer_instance

/-- The gate fires exactly when all four reject rules fail. -/
theorem should_act_on_signal_iff (trading_threshold : ℚ) (rm : RiskManager)
    (last_signals : List (String × StrategyResult))
    (symbol : String) (signal_result : StrategyResult) :
    should_act_on_signal trading_threshold rm last_signals symbol signal_result = true ↔
      ¬ signal_result.confidence < trading_threshold
      ∧ ¬ unchanged_signal last_signals symbol signal_result
      ∧ ¬ (risk_level rm = .high ∨ risk_level rm = .critical)
      ∧ ¬ (dict_lookup symbol rm.positions).isSome := by
  unfold should_act_on_signal unchanged_signal
  cases h : dict_lookup symbol last_signals <;>
    · simp only [h]
      split_ifs <;> simp_all

/-- C5 (amended): `process_signal` forwards a signal for execution exactly
when none of the four reject rules fires, but `last_signals[symbol]` is
recorded exactly on the rejecting path: a forwarded signal leaves the
cache untouched and a rejected one overwrites it. -/
theorem c5_process_signal_gate_and_recording (trading_threshold : ℚ) (rm : RiskManager)
    (last_signals : List (String × StrategyResult))
    (symbol : String) (signal_result : StrategyResult) :
    ((process_signal trading_threshold rm last_signals symbol signal_result).1 = true ↔
      ¬ signal_result.confidence < trading_threshold
      ∧ ¬ unchanged_signal last_signals symbol signal_result
      ∧ ¬ (risk_level rm = .high ∨ risk_level rm = .critical)
      ∧ ¬ (dict_lookup symbol rm.positions).isSome)
    ∧ (process_signal trading_threshold rm last_signals symbol signal_result).2 =
      (if (process_signal trading_threshold rm last_signals symbol signal_result).1 = true
       then last_signals
       else dict_insert symbol signal_result last_signals) := by
  constructor
  · rw [← should_act_on_signal_iff]
    unfold process_signal
    split_ifs with hact <;> simp [hact]
  · unfold process_signal
    split_ifs <;> simp_all

/-- The below-threshold signal used to exhibit C5's recording behaviour. -/
def low_confidence_buy : StrategyResult :=
  { signal := .buy, confidence := 0.25, stop_loss := none, take_profit := none }

/-- C5 counterexample: a signal rejected by the confidence rule IS recorded
as `last_signals[symbol]` (the store sits on the non-forwarding path), so a
rejected signal does not leave the cache unwritten as claimed. -/
theorem c5_rejected_signal_recorded_counterexample :
    (process_signal 0.5 risk_manager_default [] "BTCUSDT" low_confidence_buy).1 = false
    ∧ dict_lookup "BTCUSDT"
        (process_signal 0.5 risk_manager_default [] "BTCUSDT" low_confidence_buy).2 =
      some low_confidence_buy := by
  have hact : should_act_on_signal 0.5 risk_manager_default [] "BTCUSDT"
      low_confidence_buy = false := by
    norm_num [should_act_on_signal, low_confidence_buy, dict_lookup]
  constructor
  · simp [process_signal, hact]
  · simp [process_signal, hact, dict_insert, dict_lookup]

/-- C6 counterexample: a three-signal stream on one symbol where the third
signal is rejected at threshold 0.42 (a rejected first signal is cached and
the third is deduplicated against it) yet accepted at the higher threshold
0.455 (the second signal is now also rejected, overwriting the cache with
an opposite-direction signal). -/
def stream_c6 : List (String × StrategyResult) :=
  [("BTCUSDT", { signal := .buy, confidence := 0.40, stop_loss := none, take_profit := none }),
   ("BTCUSDT", { signal := .sell, confidence := 0.45, stop_loss := none, take_profit := none }),
   ("BTCUSDT", { signal := .buy, confidence := 0.46, stop_loss := none, take_profit := none })]

/-- C6 counterexample: raising the trading threshold from 0.42 to 0.455
turns the stream's third signal from rejected into accepted, refuting
monotonicity over a fixed signal stream. -/
theorem c6_threshold_not_monotonic_counterexample :
    (0.42 : ℚ) < 0.455
    ∧ (process_stream 0.42 risk_manager_default [] stream_c6).1 = [false, true, false]
    ∧ (process_stream 0.455 risk_manager_default [] stream_c6).1 = [false, false, true] := by
  have ha : |(1 : ℚ)/20| = 1/20 := abs_of_nonneg (by norm_num)
  have hb' : |(3 : ℚ)/50| = 3/50 := abs_of_nonneg (by norm_num)
  have hc' : |(1 : ℚ)/100| = 1/100 := abs_of_nonneg (by norm_num)
  refine ⟨by norm_num, ?_, ?_⟩ <;>
    · norm_num [process_stream, process_signal, should_act_on_signal, stream_c6,
        dict_lookup, dict_insert, risk_level, calculate_risk_score,
        calculate_total_exposure, calculate_daily_pnl, calculate_drawdown,
        risk_manager_default, ha, hb', hc']
      decide

/-- C6 (amended): for a single gate decision from one fixed processor state
the threshold is monotone — a signal accepted at the higher threshold was
accepted at every lower one, so raising the threshold can only reject more;
over multi-signal streams the property fails because rejected signals
update the deduplication cache. -/
theorem c6_gate_monotone_per_call (t t' : ℚ) (rm : RiskManager)
    (last_signals : List (String × StrategyResult))
    (symbol : String) (signal_result : StrategyResult) (h : t ≤ t') :
    should_act_on_signal t' rm last_signals symbol signal_result = true →
      should_act_on_signal t rm last_signals symbol signal_result = true := by
  rw [should_act_on_signal_iff, should_act_on_signal_iff]
  rintro ⟨h1, h2, h3, h4⟩
  exact ⟨fun hlt => h1 (lt_of_lt_of_le hlt h), h2, h3, h4⟩

/-- Witness for C6: thresholds 0 ≤ 1 on the fresh state with a confident
signal. -/
theorem c6_gate_monotone_per_call_witness :
    (0 : ℚ) ≤ 1
    ∧ (should_act_on_signal 1 risk_manager_default [] "BTCUSDT"
        { signal := .buy, confidence := 1, stop_loss := none, take_profit := none } = true →
      should_act_on_signal 0 risk_manager_default [] "BTCUSDT"
        { signal := .buy, confidence := 1, stop_loss := none, take_profit := none } = true) :=
  ⟨by decide, c6_gate_monotone_per_call 0 1 risk_manager_default [] "BTCUSDT"
    { signal := .buy, confidence := 1, stop_loss := none, take_profit := none } (by decide)⟩

/-- Erasing a key that was freshly inserted into a dictionary without it
restores the dictionary exactly. -/
theorem dict_erase_insert {α : Type} (k : String) (v : α) (l : List (String × α))
    (h : dict_lookup k l = none) : dict_erase k (dict_insert k v l) = l := by
  induction l with
  | nil => simp [dict_insert, dict_erase]
  | cons hd tl ih =>
    obtain ⟨k', v'⟩ := hd
    by_cases hk : k' = k
    · simp [dict_lookup, hk] at h
    · have h' : dict_lookup k tl = none := by
        simp only [dict_lookup, if_neg hk] at h
        exact h
      simp only [dict_insert, if_neg hk, dict_erase, ih h']

/-- C7 counterexample: when the symbol is already tracked, `add_position`
overwrites the old entry and `remove_position` deletes the new one, so the
round trip loses a position and its exposure. -/
def rm_one_btc : RiskManager :=
  { risk_manager_default with
    account_balance := 10000, initial_balance := 10000,
    positions := [("BTCUSDT",
      { symbol := "BTCUSDT", position_size := 1, entry_price := 100,
        current_price := 100, unrealized_pnl := 0, risk_percentage := 0,
        stop_loss_distance := 0, take_profit_distance := 0 })] }

/-- A second position on the same symbol as `rm_one_btc` already tracks. -/
def btc_position_again : PositionRisk :=
  { symbol := "BTCUSDT", position_size := 2, entry_price := 100,
    current_price := 100, unrealized_pnl := 0, risk_percentage := 0,
    stop_loss_distance := 0, take_profit_distance := 0 }

/-- C7 counterexample: adding a position for an already-tracked symbol and
then removing it drops the position count from 1 to 0 and the exposure
from 100 to 0 — neither is restored. -/
theorem c7_roundtrip_counterexample :
    (remove_position "BTCUSDT" (add_position btc_position_again rm_one_btc)).positions.length ≠
      rm_one_btc.positions.length
    ∧ calculate_total_exposure
        (remove_position "BTCUSDT" (add_position btc_position_again rm_one_btc)) ≠
      calculate_total_exposure rm_one_btc := by
  constructor
  · norm_num [remove_position, add_position, rm_one_btc, btc_position_again,
      dict_insert, dict_erase]
  · norm_num [remove_position, add_position, rm_one_btc, btc_position_again,
      calculate_total_exposure, dict_insert, dict_erase]

/-- C7 (amended): for a symbol not yet tracked, adding its `PositionRisk`
and immediately removing it restores the position count and total exposure
exactly. -/
theorem c7_add_remove_roundtrip (rm : RiskManager) (p : PositionRisk)
    (h : dict_lookup p.symbol rm.positions = none) :
    (remove_position p.symbol (add_position p rm)).positions.length =
      rm.positions.length
    ∧ calculate_total_exposure (remove_position p.symbol (add_position p rm)) =
      calculate_total_exposure rm := by
  have hstate : remove_position p.symbol (add_position p rm) = rm := by
    simp [remove_position, add_position, dict_erase_insert p.symbol p rm.positions h]
  rw [hstate]
  exact ⟨rfl, rfl⟩

/-- Witness for C7: adding Scenario C's position to the fresh risk manager
(which tracks nothing) and removing it restores count and exposure. -/
theorem c7_add_remove_roundtrip_witness :
    dict_lookup position_scenario_c.symbol risk_manager_default.positions = none
    ∧ ((remove_position position_scenario_c.symbol
          (add_position position_scenario_c risk_manager_default)).positions.length =
        risk_manager_default.positions.length
      ∧ calculate_total_exposure (remove_position position_scenario_c.symbol
          (add_position position_scenario_c risk_manager_default)) =
        calculate_total_exposure risk_manager_default) :=
  ⟨rfl, c7_add_remove_roundtrip risk_manager_default position_scenario_c rfl⟩

/-- Parameters with `fast_ema = 20 ≥ medium_ema = 10`, inconsistent for the
triple-EMA crossover. -/
def inconsistent_ema_params : TripleEMAParams :=
  { fast_ema := 20, medium_ema := 10, slow_ema := 50, min_candles := 4 }

/-- C8 counterexample: on inconsistent periods the triple-EMA validation
raises `ValueError`, not `ConfigurationError` — the error type the claim
names is wrong. -/
theorem c8_validation_error_type_counterexample :
    validate_parameters inconsistent_ema_params =
      Except.error (PyError.valueError
        "EMA periods must be in ascending order: fast < medium < slow")
    ∧ is_configuration_error (validate_parameters inconsistent_ema_params) = false := by
  exact ⟨rfl, rfl⟩

/-- C8 (amended): whenever `fast ≥ medium` or `medium ≥ slow`, the
triple-EMA parameter validation fails — but with `ValueError` (the source
and its own test expect `ValueError`), not `ConfigurationError`. -/
theorem c8_validate_parameters_rejects_inconsistent (p : TripleEMAParams)
    (h : p.medium_ema ≤ p.fast_ema ∨ p.slow_ema ≤ p.medium_ema) :
    validate_parameters p =
      Except.error (PyError.valueError
        "EMA periods must be in ascending order: fast < medium < slow") := by
  have hn : ¬ (p.fast_ema < p.medium_ema ∧ p.medium_ema < p.slow_ema) := by
    rcases h with h | h
    · exact fun hc => absurd hc.1 (not_lt.2 h)
    · exact fun hc => absurd hc.2 (not_lt.2 h)
  simp [validate_parameters, hn]

/-- Witness for C8: the concrete inconsistent parameters (fast 20,
medium 10, slow 50) trigger the `ValueError`. -/
theorem c8_validate_parameters_rejects_inconsistent_witness :
    (inconsistent_ema_params.medium_ema ≤ inconsistent_ema_params.fast_ema ∨
      inconsistent_ema_params.slow_ema ≤ inconsistent_ema_params.medium_ema)
    ∧ validate_parameters inconsistent_ema_params =
      Except.error (PyError.valueError
        "EMA periods must be in ascending order: fast < medium < slow") :=
  ⟨by decide, c8_validate_parameters_rejects_inconsistent inconsistent_ema_params (by decide)⟩

/-- C9 counterexample: when the first `set_account_balance` call passes 0,
the initial balance is still 0 afterwards, and the second call overwrites
it — a subsequent call does not leave `initial_balance` unchanged. -/
theorem c9_zero_first_call_counterexample :
    (set_account_balance 0 risk_manager_default).initial_balance = 0
    ∧ (set_account_balance 100 (set_account_balance 0 risk_manager_default)).initial_balance =
        100
    ∧ (set_account_balance 100 (set_account_balance 0 risk_manager_default)).initial_balance ≠
        (set_account_balance 0 risk_manager_default).initial_balance := by
  refine ⟨rfl, rfl, by norm_num [set_account_balance, risk_manager_default]⟩

/-- Once the initial balance is non-zero, later `set_account_balance` calls
never change it. -/
theorem foldl_set_account_balance_initial (bs : List ℚ) (rm : RiskManager)
    (h : rm.initial_balance ≠ 0) :
    (bs.foldl (fun r bal => set_account_balance bal r) rm).initial_balance =
      rm.initial_balance := by
  induction bs generalizing rm with
  | nil => rfl
  | cons b rest ih =>
    have hstep : (set_account_balance b rm).initial_balance = rm.initial_balance := by
      simp [set_account_balance, h]
    rw [List.foldl_cons, ih (set_account_balance b rm) (by rw [hstep]; exact h), hstep]

/-- C9 (amended): starting from a fresh risk manager, a first call with a
non-zero balance sets both the current and the initial balance to its
argument, and every subsequent call leaves the initial balance unchanged;
the qualification "non-zero" is forced, since a first call with 0 leaves
`initial_balance` at 0 and the next call overwrites it. -/
theorem c9_initial_balance_fixed_by_first_call (b : ℚ) (bs : List ℚ)
    (h : b ≠ 0) :
    (set_account_balance b risk_manager_default).account_balance = b
    ∧ (set_account_balance b risk_manager_default).initial_balance = b
    ∧ (bs.foldl (fun r bal => set_account_balance bal r)
        (set_account_balance b risk_manager_default)).initial_balance = b := by
  have hfirst : (set_account_balance b risk_manager_default).initial_balance = b := rfl
  refine ⟨rfl, hfirst, ?_⟩
  rw [foldl_set_account_balance_initial bs _ (by rw [hfirst]; exact h), hfirst]

/-- Witness for C9: first call 100, later calls 50 and 0 leave the initial
balance at 100. -/
theorem c9_initial_balance_fixed_by_first_call_witness :
    (100 : ℚ) ≠ 0
    ∧ ((set_account_balance 100 risk_manager_default).account_balance = 100
      ∧ (set_account_balance 100 risk_manager_default).initial_balance = 100
      ∧ (([50, 0] : List ℚ).foldl (fun r bal => set_account_balance bal r)
          (set_account_balance 100 risk_manager_default)).initial_balance = 100) :=
  ⟨by decide, c9_initial_balance_fixed_by_first_call 100 [50, 0] (by decide)⟩

/-- C10: with `dry_run = true`, `open_position` returns the synthetic
filled acknowledgement `{order_id: "dry_run", status: "FILLED"}` while
leaving the risk manager and the tracked-position map unchanged and making
no call to the exchange client, `calculate_position_size` or
`check_risk_limits`; `_close_position` in dry-run mode likewise changes
nothing and calls nothing. -/
theorem c10_dry_run_is_pure (api : String → String → ℚ → OrderAck)
    (rm : RiskManager) (pm : List (String × TrackedPosition)) (symbol : String)
    (signal_result : StrategyResult) (current_price : ℚ) (reason : String) :
    open_position true api rm pm symbol signal_result current_price =
      (some { order_id := "dry_run", status := "FILLED" }, rm, pm, [])
    ∧ close_position true api rm pm symbol reason = (rm, pm, []) :=
  ⟨rfl, rfl⟩
